import Mathlib

/-!
Verification development for the holmdigital engine scanning-and-enrichment
pipeline: a shallow embedding of the regulatory-standards database functions,
the violation resolver, the score/compliance calculator, the scan
orchestration control flow (retry loop and guaranteed session release), and
the virtual-DOM flattener, together with theorems settling the specified
properties.
-/

/- ===== Standards package: types (src/unnamed/part_000, types section) ===== -/

inductive WCAGLevel where
  | A | AA | AAA
deriving DecidableEq, Repr

inductive DiggRisk where
  | low | medium | high | critical
deriving DecidableEq, Repr

inductive EAAImpact where
  | none | low | medium | high | critical
deriving DecidableEq, Repr

inductive TestComplexity where
  | simple | moderate | complex
deriving DecidableEq, Repr

structure Remediation where
  description : String
  technicalGuidance : String
  component : Option String
  codeExample : Option String
  wcagTechnique : Option (List String)
deriving DecidableEq, Repr

/-- The TS interface has an index signature for extra keys; the only extra key
the engine ever writes is the resolver's reasoning overlay, modelled as an
explicit optional field (absent in database rules). -/
structure HolmDigitalInsight where
  diggRisk : DiggRisk
  eaaImpact : EAAImpact
  swedishInterpretation : Option String
  commonMistakes : Option (List String)
  diggPrecedent : Option String
  priorityRationale : Option String
  reasoning : Option String
deriving DecidableEq, Repr

structure Testability where
  automated : Bool
  requiresManualCheck : Bool
  pseudoAutomation : Bool
  complexity : TestComplexity
deriving DecidableEq, Repr

structure ConvergenceRule where
  ruleId : String
  wcagCriteria : String
  wcagLevel : WCAGLevel
  wcagTitle : String
  wcagVersion : String
  en301549Criteria : String
  en301549Title : String
  en301549Chapter : Nat
  dosLagenApplies : Bool
  dosLagenReference : String
  remediation : Remediation
  holmdigitalInsight : HolmDigitalInsight
  testability : Testability
  tags : List String
deriving DecidableEq, Repr

/-- One failing-node entry attached to a report by the resolver
(markup snippet, joined locator, failure summary). -/
structure FailingNodeInfo where
  html : String
  target : String
  failureSummary : String
deriving DecidableEq, Repr

/-- RegulatoryReport; the resolver attaches the extra failingNodes list on the
matched paths (an ad hoc field in TS), modelled as an optional field that is
none where the source object literal has no such key. -/
structure RegulatoryReport where
  ruleId : String
  wcagCriteria : String
  en301549Criteria : String
  dosLagenReference : String
  diggRisk : DiggRisk
  eaaImpact : EAAImpact
  remediation : Remediation
  holmdigitalInsight : HolmDigitalInsight
  testability : Testability
  failingNodes : Option (List FailingNodeInfo)
deriving DecidableEq, Repr

/- ===== Standards package: database queries (src/unnamed/part_000) =====
The per-locale rule table (getData(lang)) is external JSON data; every query
below is parametrised by that snapshot, exactly as each TS function is
parametrised by the locale selecting it. -/

def getConvergenceRule (db : List ConvergenceRule) (ruleId : String) :
    Option ConvergenceRule :=
  db.find? (fun r => r.ruleId == ruleId)

def generateRegulatoryReport (db : List ConvergenceRule) (ruleId : String) :
    Option RegulatoryReport :=
  match getConvergenceRule db ruleId with
  | Option.none => Option.none
  | Option.some rule =>
      Option.some
        { ruleId := rule.ruleId
          wcagCriteria := rule.wcagCriteria
          en301549Criteria := rule.en301549Criteria
          dosLagenReference := rule.dosLagenReference
          diggRisk := rule.holmdigitalInsight.diggRisk
          eaaImpact := rule.holmdigitalInsight.eaaImpact
          remediation := rule.remediation
          holmdigitalInsight := rule.holmdigitalInsight
          testability := rule.testability
          failingNodes := Option.none }

def searchRulesByTags (db : List ConvergenceRule) (tags : List String) :
    List ConvergenceRule :=
  db.filter (fun rule => tags.any (fun tag => rule.tags.contains tag))

/- ===== Scanner: raw axe violations and the resolver (enrichResults) ===== -/

/-- One raw failing-node occurrence as delivered by the rule engine. -/
structure RawNode where
  html : String
  target : List String
  failureSummary : String
deriving DecidableEq, Repr

structure RawViolation where
  id : String
  tags : List String
  help : String
  description : String
  nodes : List RawNode
deriving DecidableEq, Repr

/-- Steps 1 and 2 of the resolver: exact id match, then tag fallback taking
the first rule sharing at least one tag and regenerating by its ruleId. -/
def lookupReport (db : List ConvergenceRule) (v : RawViolation) :
    Option RegulatoryReport :=
  match generateRegulatoryReport db v.id with
  | Option.some report => Option.some report
  | Option.none =>
      match searchRulesByTags db v.tags with
      | [] => Option.none
      | matching0 :: _ => generateRegulatoryReport db matching0.ruleId

def mkFailingNode (node : RawNode) : FailingNodeInfo :=
  { html := node.html
    target := String.intercalate " " node.target
    failureSummary := node.failureSummary }

/-- Per-violation body of the enrichResults loop: on a database hit, patch the
insight with the violation help text as reasoning and attach the failing-node
list; otherwise build the generic synthetic report (which the source gives
neither a reasoning key nor a failingNodes key). -/
def resolveViolation (db : List ConvergenceRule) (v : RawViolation) :
    RegulatoryReport :=
  match lookupReport db v with
  | Option.some report =>
      { report with
        holmdigitalInsight :=
          { report.holmdigitalInsight with reasoning := Option.some v.help }
        failingNodes := Option.some (v.nodes.map mkFailingNode) }
  | Option.none =>
      { ruleId := v.id
        wcagCriteria := "Unknown"
        en301549Criteria := "Unknown"
        dosLagenReference := "Kräver manuell bedömning"
        diggRisk := DiggRisk.medium
        eaaImpact := EAAImpact.medium
        remediation :=
          { description := v.help
            technicalGuidance := v.description
            component := Option.none
            codeExample := Option.none
            wcagTechnique := Option.none }
        holmdigitalInsight :=
          { diggRisk := DiggRisk.medium
            eaaImpact := EAAImpact.medium
            swedishInterpretation := Option.some v.help
            commonMistakes := Option.none
            diggPrecedent := Option.none
            priorityRationale := Option.some
              "Detta fel upptäcktes av scannern men saknar specifik mappning i HolmDigital-databasen."
            reasoning := Option.none }
        testability :=
          { automated := true
            requiresManualCheck := false
            pseudoAutomation := false
            complexity := TestComplexity.moderate }
        failingNodes := Option.none }

/-- The enrichResults for-loop: pushes exactly one report per violation,
in input order, onto the accumulated list. -/
def enrichLoop (db : List ConvergenceRule) :
    List RawViolation → List RegulatoryReport → List RegulatoryReport
  | [], reports => reports
  | v :: rest, reports => enrichLoop db rest (reports ++ [resolveViolation db v])

def enrichResults (db : List ConvergenceRule) (violations : List RawViolation) :
    List RegulatoryReport :=
  enrichLoop db violations []

/- ===== Scanner: stats, score, compliance (generateResultPackage) ===== -/

structure ScanStats where
  critical : Nat
  high : Nat
  medium : Nat
  low : Nat
  total : Nat
deriving DecidableEq, Repr

inductive ComplianceStatus where
  | PASS | FAIL
deriving DecidableEq, Repr

structure ValidationMessage where
  rule : String
  message : String
  line : Nat
  column : Nat
  selector : Option String
deriving DecidableEq, Repr

structure ValidationResult where
  valid : Bool
  errors : List ValidationMessage
deriving DecidableEq, Repr

structure ScanResult where
  url : String
  timestamp : String
  reports : List RegulatoryReport
  stats : ScanStats
  score : Int
  complianceStatus : ComplianceStatus
  htmlValidation : Option ValidationResult
deriving DecidableEq, Repr

def computeStats (reports : List RegulatoryReport) : ScanStats :=
  { critical := (reports.filter
      (fun r => r.holmdigitalInsight.diggRisk == DiggRisk.critical)).length
    high := (reports.filter
      (fun r => r.holmdigitalInsight.diggRisk == DiggRisk.high)).length
    medium := (reports.filter
      (fun r => r.holmdigitalInsight.diggRisk == DiggRisk.medium)).length
    low := (reports.filter
      (fun r => r.holmdigitalInsight.diggRisk == DiggRisk.low)).length
    total := reports.length }

def generateResultPackage (url timestamp : String)
    (reports : List RegulatoryReport) : ScanResult :=
  let stats := computeStats reports
  let weightedScore : Int :=
    (stats.critical : Int) * 25 + (stats.high : Int) * 15 +
      (stats.medium : Int) * 5 + (stats.low : Int) * 1
  let score : Int := max 0 (100 - weightedScore)
  let complianceStatus :=
    if stats.total = 0 then ComplianceStatus.PASS else ComplianceStatus.FAIL
  { url := url
    timestamp := timestamp
    reports := reports
    stats := stats
    score := score
    complianceStatus := complianceStatus
    htmlValidation := Option.none }

/- ===== Scanner: scan() orchestration (RegulatoryScanner.scan) =====
The external browser process is modelled by an environment supplying the
outcome of each navigation attempt, the rule-engine run, and the captured
page data; the session resource is the scanner's browser field, with
initBrowser setting it and close clearing it. The try/finally of scan()
becomes an unconditional close applied to the state of every exit path. -/

structure ScannerOptions where
  url : String
  headless : Bool
  standard : String
  failOnCritical : Bool
  silent : Bool
deriving DecidableEq, Repr

/-- Constructor defaults: headless true, standard dos-lagen, silent false. -/
def mkScannerOptions (url : String) : ScannerOptions :=
  { url := url
    headless := true
    standard := "dos-lagen"
    failOnCritical := false
    silent := false }

/-- Fixed navigation constants from the source: 60000 ms per goto attempt,
3 attempts, 2000 ms backoff between failed attempts. -/
def navigationTimeoutMs : Nat := 60000

def navigationRetries : Nat := 3

def navigationBackoffMs : Nat := 2000

/-- Error taxonomy for fatal scan outcomes. -/
inductive ScanError where
  | launch (msg : String)
  | navigation (msg : String)
  | ruleEngine (msg : String)
deriving DecidableEq, Repr

/-- Environment of one scan: what the external browser / validator /
rule-engine processes answer at each interaction point. -/
structure ScanEnv where
  launchOk : Bool
  navOk : Nat → Bool
  navErrMsg : Nat → String
  timestamp : String
  htmlValidation : ValidationResult
  axeOk : Bool
  axeErrMsg : String
  violations : List RawViolation
  rules : List ConvergenceRule

/-- Record of one goto attempt: its timeout and the backoff slept after it
(none when the loop exits right after this attempt). -/
structure NavAttempt where
  timeoutMs : Nat
  backoffAfterMs : Option Nat
deriving DecidableEq, Repr

/-- The navigation retry loop: while retries > 0, attempt goto; break on
success; on failure decrement retries, rethrow when exhausted, otherwise
sleep 2000 ms and try again. The second component is the trace of attempts
actually made. -/
def navLoop (env : ScanEnv) :
    Nat → Nat → Except ScanError Unit × List NavAttempt
  | 0, _ => (Except.ok (), [])
  | retries + 1, i =>
      if env.navOk i then
        (Except.ok (), [{ timeoutMs := navigationTimeoutMs
                          backoffAfterMs := Option.none }])
      else if retries = 0 then
        (Except.error (ScanError.navigation (env.navErrMsg i)),
          [{ timeoutMs := navigationTimeoutMs, backoffAfterMs := Option.none }])
      else
        let rest := navLoop env retries (i + 1)
        (rest.1,
          { timeoutMs := navigationTimeoutMs
            backoffAfterMs := Option.some navigationBackoffMs } :: rest.2)

/-- Session state: the scanner's browser field (some () while a browser/page
pair is open, none otherwise). -/
structure ScannerState where
  browser : Option Unit
deriving DecidableEq, Repr

/-- close(): closes the browser if open and nulls the field; closing an
already-closed session is a no-op. -/
def closeScanner (s : ScannerState) : ScannerState :=
  match s.browser with
  | Option.some _ => { browser := Option.none }
  | Option.none => s

/-- The try-block of scan(): launch, navigate with retry, best-effort network
idle (its timeout is swallowed and changes nothing observable), capture and
validate content, build the virtual DOM, run the rule engine, enrich, and
package; each fatal path returns the error together with the session state
at the throw point. -/
def scanAttempt (options : ScannerOptions) (env : ScanEnv) :
    Except ScanError ScanResult × ScannerState :=
  if env.launchOk = false then
    (Except.error (ScanError.launch "browser process failed to start"),
      { browser := Option.none })
  else
    let s : ScannerState := { browser := Option.some () }
    match (navLoop env navigationRetries 0).1 with
    | Except.error e => (Except.error e, s)
    | Except.ok _ =>
        if env.axeOk = false then
          (Except.error (ScanError.ruleEngine env.axeErrMsg), s)
        else
          let reports := enrichResults env.rules env.violations
          let result := generateResultPackage options.url env.timestamp reports
          let final := { result with htmlValidation := Option.some env.htmlValidation }
          (Except.ok final, s)

/-- scan(): the try-block wrapped in the finally that releases the session on
every exit path. -/
def scan (options : ScannerOptions) (env : ScanEnv) :
    Except ScanError ScanResult × ScannerState :=
  let attempt := scanAttempt options env
  (attempt.1, closeScanner attempt.2)

/- ===== Virtual DOM flattener (src/packages/engine/src/core/virtual-dom.ts) =====
The live DOM snapshot is modelled as a tree of nodes; an element carries its
attached shadow tree (mode, text and child list) when one exists, mirroring
element.shadowRoot. Style resolution is modelled by the style map the browser
would report for the element. -/

inductive ShadowMode where
  | openMode | closedMode
deriving DecidableEq, Repr

/-- A DOM node: an element (with light children and an optional attached
shadow tree), a text node, or a comment node. shadowMode = none means no
shadow root is attached and shadowText/shadowKids are unused. -/
inductive DNode where
  | elem (tagName : String) (attrs : List (String × String))
      (styles : List (String × String)) (rectX rectY rectW rectH : Int)
      (textContent : String) (children : List DNode)
      (shadowMode : Option ShadowMode) (shadowText : String)
      (shadowKids : List DNode)
  | textNode (content : String)
  | commentNode (content : String)

structure Rect where
  x : Int
  y : Int
  width : Int
  height : Int
deriving DecidableEq, Repr

def zeroRect : Rect := { x := 0, y := 0, width := 0, height := 0 }

structure VirtualDOMConfig where
  includeComputedStyle : Option (List String)
  maxDepth : Option Nat
deriving DecidableEq, Repr

/-- VirtualNode of the flattened composed tree. -/
inductive VirtualNode where
  | mk (nodeId : String) (tagName : String) (attributes : List (String × String))
      (children : List VirtualNode) (parentId : Option String)
      (isShadowRoot : Bool) (shadowMode : Option ShadowMode) (rect : Rect)
      (computedStyle : Option (List (String × String)))
      (textContent : Option String)

def VirtualNode.nodeId : VirtualNode → String
  | .mk i _ _ _ _ _ _ _ _ _ => i

def VirtualNode.tagName : VirtualNode → String
  | .mk _ t _ _ _ _ _ _ _ _ => t

def VirtualNode.attributes : VirtualNode → List (String × String)
  | .mk _ _ a _ _ _ _ _ _ _ => a

def VirtualNode.children : VirtualNode → List VirtualNode
  | .mk _ _ _ c _ _ _ _ _ _ => c

def VirtualNode.parentId : VirtualNode → Option String
  | .mk _ _ _ _ p _ _ _ _ _ => p

def VirtualNode.isShadowRoot : VirtualNode → Bool
  | .mk _ _ _ _ _ s _ _ _ _ => s

def VirtualNode.shadowMode : VirtualNode → Option ShadowMode
  | .mk _ _ _ _ _ _ m _ _ _ => m

/-- The JS guard `config.maxDepth && depth > config.maxDepth`: an absent or
zero maxDepth is falsy and disables pruning. -/
def pruneAt (maxDepth : Option Nat) (depth : Nat) : Bool :=
  match maxDepth with
  | Option.none => false
  | Option.some m => if m = 0 then false else decide (depth > m)

/-- getComputedStyle(element).getPropertyValue(prop) on the element's style
map (missing property resolves to the empty string). -/
def styleLookup (styles : List (String × String)) (prop : String) : String :=
  match styles.find? (fun p => p.1 == prop) with
  | Option.some p => p.2
  | Option.none => ""

def resolveStyles (cfg : VirtualDOMConfig) (styles : List (String × String)) :
    Option (List (String × String)) :=
  match cfg.includeComputedStyle with
  | Option.none => Option.none
  | Option.some props =>
      Option.some (props.map (fun prop => (prop, styleLookup styles prop)))

/-- generateId(): pre-incremented counter rendered as vn-<n>. -/
def genId (n : Nat) : String := "vn-" ++ toString n

/-- `node.textContent || undefined`. -/
def optText (s : String) : Option String :=
  if s = "" then Option.none else Option.some s

/-- The child-loop guard `child.nodeType === Node.ELEMENT_NODE`. -/
def DNode.isElem : DNode → Bool
  | DNode.elem .. => true
  | _ => false

/-- The push-if-non-null idiom: a null traverse result contributes nothing
to the children array, a node is pushed once. -/
def optToList : Option VirtualNode → List VirtualNode
  | Option.some v => [v]
  | Option.none => []

mutual

/-- traverse(node, parent, depth) on an element / text / comment node: text
and comment nodes are never emitted; an element beyond the depth limit is
pruned; otherwise its light-DOM element children are traversed first and the
attached shadow root, if any, is traversed and appended last. Returns the
produced node (if any) and the updated id counter. -/
def traverseNode (cfg : VirtualDOMConfig) (n : DNode) (parentId : Option String)
    (depth : Nat) (counter : Nat) : Option VirtualNode × Nat :=
  match n with
  | DNode.textNode _ => (Option.none, counter)
  | DNode.commentNode _ => (Option.none, counter)
  | DNode.elem tag attrs styles rx ry rw rh text children shadowMode stext skids =>
      if pruneAt cfg.maxDepth depth then (Option.none, counter)
      else
        let nodeId := genId (counter + 1)
        let lightRes := traverseChildren cfg children (Option.some nodeId)
          (depth + 1) (counter + 1)
        let shadowRes := traverseShadow cfg shadowMode stext skids
          (Option.some nodeId) (depth + 1) lightRes.2
        (Option.some (VirtualNode.mk nodeId tag attrs
          (lightRes.1 ++ optToList shadowRes.1) parentId false
          Option.none { x := rx, y := ry, width := rw, height := rh }
          (resolveStyles cfg styles) (optText text)), shadowRes.2)
termination_by (sizeOf n, 1)

/-- The child loop: only element children are passed to traverse; a null
return (depth-pruned child) is not pushed. -/
def traverseChildren (cfg : VirtualDOMConfig) (ns : List DNode)
    (parentId : Option String) (depth : Nat) (counter : Nat) :
    List VirtualNode × Nat :=
  match ns with
  | [] => ([], counter)
  | n :: rest =>
      if n.isElem then
        let hd := traverseNode cfg n parentId depth counter
        let tl := traverseChildren cfg rest parentId depth hd.2
        (optToList hd.1 ++ tl.1, tl.2)
      else traverseChildren cfg rest parentId depth counter
termination_by (sizeOf ns, 0)

/-- The shadow step of traverse: with no attached shadow root (the guard
`element.shadowRoot` is falsy) nothing is traversed; otherwise the fragment
is emitted as a synthetic `#shadow-root` node carrying the declared mode,
empty attributes and a zero rectangle, recursing into the fragment's element
children. -/
def traverseShadow (cfg : VirtualDOMConfig) (shadowMode : Option ShadowMode)
    (stext : String) (kids : List DNode) (parentId : Option String)
    (depth : Nat) (counter : Nat) : Option VirtualNode × Nat :=
  match shadowMode with
  | Option.none => (Option.none, counter)
  | Option.some mode =>
      if pruneAt cfg.maxDepth depth then (Option.none, counter)
      else
        let nodeId := genId (counter + 1)
        let inner := traverseChildren cfg kids (Option.some nodeId) (depth + 1)
          (counter + 1)
        (Option.some (VirtualNode.mk nodeId "#shadow-root" [] inner.1 parentId
          true (Option.some mode) zeroRect Option.none (optText stext)),
          inner.2)
termination_by (sizeOf kids, 2)

end

/-- build(config): start traversal at document.body, or return the synthetic
empty body-tagged fallback root when no body exists. -/
def build (cfg : VirtualDOMConfig) (body : Option DNode) : Option VirtualNode :=
  match body with
  | Option.none =>
      Option.some (VirtualNode.mk "root-fallback" "body" [] [] Option.none
        false Option.none zeroRect Option.none Option.none)
  | Option.some b => (traverseNode cfg b Option.none 0 0).1

/- ===== Concrete fixtures used by witnesses and counterexamples ===== -/

def ruleImageAlt : ConvergenceRule :=
  { ruleId := "image-alt"
    wcagCriteria := "1.1.1"
    wcagLevel := WCAGLevel.A
    wcagTitle := "Non-text Content"
    wcagVersion := "2.1"
    en301549Criteria := "9.1.1.1"
    en301549Title := "Non-text content"
    en301549Chapter := 9
    dosLagenApplies := true
    dosLagenReference := "3 §"
    remediation :=
      { description := "Provide alternative text"
        technicalGuidance := "Add an alt attribute"
        component := Option.none
        codeExample := Option.none
        wcagTechnique := Option.none }
    holmdigitalInsight :=
      { diggRisk := DiggRisk.critical
        eaaImpact := EAAImpact.high
        swedishInterpretation := Option.some "Alternativtext krävs"
        commonMistakes := Option.none
        diggPrecedent := Option.none
        priorityRationale := Option.none
        reasoning := Option.none }
    testability :=
      { automated := true
        requiresManualCheck := false
        pseudoAutomation := false
        complexity := TestComplexity.simple }
    tags := ["wcag2a", "images"] }

def ruleKeyboardNav : ConvergenceRule :=
  { ruleImageAlt with
    ruleId := "keyboard-nav"
    wcagCriteria := "2.1.1"
    en301549Criteria := "9.2.1.1"
    holmdigitalInsight :=
      { ruleImageAlt.holmdigitalInsight with diggRisk := DiggRisk.high }
    tags := ["keyboard", "wcag2a"] }

def vImageAlt : RawViolation :=
  { id := "image-alt"
    tags := ["wcag2a"]
    help := "Images must have alternate text"
    description := "Ensures img elements have alternate text"
    nodes := [{ html := "<img src=x>", target := ["body", "img"],
                failureSummary := "Element does not have an alt attribute" }] }

def vTagOnly : RawViolation :=
  { id := "server-side-image-map"
    tags := ["keyboard"]
    help := "Server-side image maps must not be used"
    description := "Ensures that server-side image maps are not used"
    nodes := [{ html := "<img ismap>", target := ["img"],
                failureSummary := "ismap present" }] }

def vUnmatched : RawViolation :=
  { id := "custom-check"
    tags := ["custom-tag"]
    help := "Fix the widget"
    description := "Widget lacks a label"
    nodes := [{ html := "<div>", target := ["div"],
                failureSummary := "missing label" }] }

def optionsExample : ScannerOptions := mkScannerOptions "https://example.org"

def envAllNavFail : ScanEnv :=
  { launchOk := true
    navOk := fun _ => false
    navErrMsg := fun _ => "net::ERR_NAME_NOT_RESOLVED"
    timestamp := "2026-01-01T00:00:00.000Z"
    htmlValidation := { valid := true, errors := [] }
    axeOk := true
    axeErrMsg := ""
    violations := []
    rules := [] }

def spanLeaf : DNode :=
  DNode.elem "span" [] [] 0 0 0 0 "hello" [] Option.none "" []

def shadowHost : DNode :=
  DNode.elem "div" [("id", "host")] [] 0 0 10 10 "hello"
    [spanLeaf, DNode.textNode "light text", spanLeaf]
    (Option.some ShadowMode.openMode) "shadow text" [spanLeaf]

def defaultVDOMConfig : VirtualDOMConfig :=
  { includeComputedStyle := Option.none, maxDepth := Option.none }

def reportMediumEx : RegulatoryReport := resolveViolation [] vUnmatched

def reportCriticalEx : RegulatoryReport :=
  { reportMediumEx with
    holmdigitalInsight :=
      { reportMediumEx.holmdigitalInsight with diggRisk := DiggRisk.critical } }

/- ===== General lemmas ===== -/

theorem enrichLoop_eq_append (db : List ConvergenceRule) :
    ∀ (vs : List RawViolation) (acc : List RegulatoryReport),
      enrichLoop db vs acc = acc ++ vs.map (resolveViolation db)
  | [], acc => by simp [enrichLoop]
  | v :: rest, acc => by
      simp [enrichLoop, enrichLoop_eq_append db rest]

theorem stats_partition (reports : List RegulatoryReport) :
    (computeStats reports).critical + (computeStats reports).high +
      (computeStats reports).medium + (computeStats reports).low =
      (computeStats reports).total := by
  simp only [computeStats]
  induction reports with
  | nil => simp
  | cons r t ih =>
      cases h : r.holmdigitalInsight.diggRisk <;>
        simp [List.filter_cons, h] <;> omega

/- ===== Claim theorems ===== -/

/-- C2: for every scan result assembled from a report list, stats.total equals
the length of the reports list, and complianceStatus is PASS if and only if
stats.total is 0 (otherwise FAIL). -/
theorem C2_total_and_compliance (url timestamp : String)
    (reports : List RegulatoryReport) :
    (generateResultPackage url timestamp reports).stats.total = reports.length ∧
    ((generateResultPackage url timestamp reports).complianceStatus =
        ComplianceStatus.PASS ↔
      (generateResultPackage url timestamp reports).stats.total = 0) := by
  refine ⟨rfl, ?_⟩
  simp only [generateResultPackage, computeStats]
  by_cases h : reports.length = 0 <;> simp [h]

/-- C3: the computed score equals max(0, 100 − (critical×25 + high×15 +
medium×5 + low×1)); in particular 1 critical plus 2 medium violations (with
no high and no low findings) yields score 65. -/
theorem C3_score_formula (url timestamp : String)
    (reports : List RegulatoryReport) :
    (generateResultPackage url timestamp reports).score =
      max 0 (100 -
        (((generateResultPackage url timestamp reports).stats.critical : Int) * 25 +
          ((generateResultPackage url timestamp reports).stats.high : Int) * 15 +
          ((generateResultPackage url timestamp reports).stats.medium : Int) * 5 +
          ((generateResultPackage url timestamp reports).stats.low : Int) * 1)) ∧
    ((generateResultPackage url timestamp reports).stats.critical = 1 →
      (generateResultPackage url timestamp reports).stats.high = 0 →
      (generateResultPackage url timestamp reports).stats.medium = 2 →
      (generateResultPackage url timestamp reports).stats.low = 0 →
      (generateResultPackage url timestamp reports).score = 65) := by
  refine ⟨rfl, ?_⟩
  intro h1 h2 h3 h4
  have hf : (generateResultPackage url timestamp reports).score =
      max 0 (100 -
        (((generateResultPackage url timestamp reports).stats.critical : Int) * 25 +
          ((generateResultPackage url timestamp reports).stats.high : Int) * 15 +
          ((generateResultPackage url timestamp reports).stats.medium : Int) * 5 +
          ((generateResultPackage url timestamp reports).stats.low : Int) * 1)) := rfl
  rw [hf, h1, h2, h3, h4]
  norm_num

/-- C10: the per-tier counts partition the total, since every report's
diggRisk is exactly one of the four tiers. -/
theorem C10_tier_partition (url timestamp : String)
    (reports : List RegulatoryReport) :
    (generateResultPackage url timestamp reports).stats.critical +
      (generateResultPackage url timestamp reports).stats.high +
      (generateResultPackage url timestamp reports).stats.medium +
      (generateResultPackage url timestamp reports).stats.low =
      (generateResultPackage url timestamp reports).stats.total :=
  stats_partition reports

/-- C8: resolution yields exactly one report per input violation, in input
order: the output is precisely the input list mapped through the
per-violation resolver. -/
theorem C8_one_report_per_violation (db : List ConvergenceRule)
    (violations : List RawViolation) :
    (enrichResults db violations).length = violations.length ∧
    enrichResults db violations = violations.map (resolveViolation db) := by
  have h := enrichLoop_eq_append db violations []
  exact ⟨by simp [enrichResults, h], by simpa [enrichResults] using h⟩

/-- C5: a violation matching neither id nor tag resolves to the synthetic
report: risk medium, impact medium (both top-level and inside the insight),
the Unknown sentinel for the wcag and en301549 references, remediation
description equal to the violation help text, technical guidance equal to
its description, and the manual-assessment flag (the dosLagenReference
sentinel string, Swedish for "requires manual assessment"). -/
theorem C5_synthetic_fallback (db : List ConvergenceRule) (v : RawViolation)
    (hid : generateRegulatoryReport db v.id = Option.none)
    (htags : searchRulesByTags db v.tags = []) :
    (resolveViolation db v).diggRisk = DiggRisk.medium ∧
    (resolveViolation db v).eaaImpact = EAAImpact.medium ∧
    (resolveViolation db v).holmdigitalInsight.diggRisk = DiggRisk.medium ∧
    (resolveViolation db v).holmdigitalInsight.eaaImpact = EAAImpact.medium ∧
    (resolveViolation db v).wcagCriteria = "Unknown" ∧
    (resolveViolation db v).en301549Criteria = "Unknown" ∧
    (resolveViolation db v).remediation.description = v.help ∧
    (resolveViolation db v).remediation.technicalGuidance = v.description ∧
    (resolveViolation db v).dosLagenReference = "Kräver manuell bedömning" := by
  simp [resolveViolation, lookupReport, hid, htags]

/-- C5 witness: the synthetic fallback evaluated against the empty rule
table on a concrete unmatched violation. -/
theorem C5_synthetic_fallback_witness :
    generateRegulatoryReport [] vUnmatched.id = Option.none ∧
    searchRulesByTags [] vUnmatched.tags = [] ∧
    ((resolveViolation [] vUnmatched).diggRisk = DiggRisk.medium ∧
      (resolveViolation [] vUnmatched).eaaImpact = EAAImpact.medium ∧
      (resolveViolation [] vUnmatched).holmdigitalInsight.diggRisk = DiggRisk.medium ∧
      (resolveViolation [] vUnmatched).holmdigitalInsight.eaaImpact = EAAImpact.medium ∧
      (resolveViolation [] vUnmatched).wcagCriteria = "Unknown" ∧
      (resolveViolation [] vUnmatched).en301549Criteria = "Unknown" ∧
      (resolveViolation [] vUnmatched).remediation.description = vUnmatched.help ∧
      (resolveViolation [] vUnmatched).remediation.technicalGuidance = vUnmatched.description ∧
      (resolveViolation [] vUnmatched).dosLagenReference = "Kräver manuell bedömning") :=
  ⟨by decide, by decide, C5_synthetic_fallback [] vUnmatched (by decide) (by decide)⟩

/-- C6: a violation whose id exactly matches a database rule (the rule the
id query returns) yields a report whose regulatory fields and canonical
insight fields equal that rule's fields exactly. -/
theorem C6_exact_match_round_trip (db : List ConvergenceRule)
    (v : RawViolation) (rule : ConvergenceRule)
    (h : getConvergenceRule db v.id = Option.some rule) :
    (resolveViolation db v).ruleId = rule.ruleId ∧
    (resolveViolation db v).wcagCriteria = rule.wcagCriteria ∧
    (resolveViolation db v).en301549Criteria = rule.en301549Criteria ∧
    (resolveViolation db v).dosLagenReference = rule.dosLagenReference ∧
    (resolveViolation db v).diggRisk = rule.holmdigitalInsight.diggRisk ∧
    (resolveViolation db v).eaaImpact = rule.holmdigitalInsight.eaaImpact ∧
    (resolveViolation db v).remediation = rule.remediation ∧
    (resolveViolation db v).testability = rule.testability ∧
    (resolveViolation db v).holmdigitalInsight.diggRisk =
      rule.holmdigitalInsight.diggRisk ∧
    (resolveViolation db v).holmdigitalInsight.eaaImpact =
      rule.holmdigitalInsight.eaaImpact ∧
    (resolveViolation db v).holmdigitalInsight.swedishInterpretation =
      rule.holmdigitalInsight.swedishInterpretation ∧
    (resolveViolation db v).holmdigitalInsight.commonMistakes =
      rule.holmdigitalInsight.commonMistakes ∧
    (resolveViolation db v).holmdigitalInsight.diggPrecedent =
      rule.holmdigitalInsight.diggPrecedent ∧
    (resolveViolation db v).holmdigitalInsight.priorityRationale =
      rule.holmdigitalInsight.priorityRationale := by
  simp [resolveViolation, lookupReport, generateRegulatoryReport, h]

/-- C6 witness: round-trip fidelity at a concrete one-rule table and a
violation with the exactly matching id. -/
theorem C6_exact_match_round_trip_witness :
    getConvergenceRule [ruleImageAlt] vImageAlt.id = Option.some ruleImageAlt ∧
    ((resolveViolation [ruleImageAlt] vImageAlt).ruleId = ruleImageAlt.ruleId ∧
      (resolveViolation [ruleImageAlt] vImageAlt).wcagCriteria = ruleImageAlt.wcagCriteria ∧
      (resolveViolation [ruleImageAlt] vImageAlt).en301549Criteria = ruleImageAlt.en301549Criteria ∧
      (resolveViolation [ruleImageAlt] vImageAlt).dosLagenReference = ruleImageAlt.dosLagenReference ∧
      (resolveViolation [ruleImageAlt] vImageAlt).diggRisk = ruleImageAlt.holmdigitalInsight.diggRisk ∧
      (resolveViolation [ruleImageAlt] vImageAlt).eaaImpact = ruleImageAlt.holmdigitalInsight.eaaImpact ∧
      (resolveViolation [ruleImageAlt] vImageAlt).remediation = ruleImageAlt.remediation ∧
      (resolveViolation [ruleImageAlt] vImageAlt).testability = ruleImageAlt.testability ∧
      (resolveViolation [ruleImageAlt] vImageAlt).holmdigitalInsight.diggRisk =
        ruleImageAlt.holmdigitalInsight.diggRisk ∧
      (resolveViolation [ruleImageAlt] vImageAlt).holmdigitalInsight.eaaImpact =
        ruleImageAlt.holmdigitalInsight.eaaImpact ∧
      (resolveViolation [ruleImageAlt] vImageAlt).holmdigitalInsight.swedishInterpretation =
        ruleImageAlt.holmdigitalInsight.swedishInterpretation ∧
      (resolveViolation [ruleImageAlt] vImageAlt).holmdigitalInsight.commonMistakes =
        ruleImageAlt.holmdigitalInsight.commonMistakes ∧
      (resolveViolation [ruleImageAlt] vImageAlt).holmdigitalInsight.diggPrecedent =
        ruleImageAlt.holmdigitalInsight.diggPrecedent ∧
      (resolveViolation [ruleImageAlt] vImageAlt).holmdigitalInsight.priorityRationale =
        ruleImageAlt.holmdigitalInsight.priorityRationale) :=
  ⟨by decide, C6_exact_match_round_trip [ruleImageAlt] vImageAlt ruleImageAlt (by decide)⟩

/-- C4 counterexample: on the synthetic-fallback path the claim fails — for a
violation (with one failing-node occurrence) matching nothing in the rule
table, the resolved report's insight has no reasoning field at all and no
failing-node list is attached. -/
theorem C4_claim_counterexample :
    vUnmatched.nodes ≠ [] ∧
    (resolveViolation [] vUnmatched).holmdigitalInsight.reasoning ≠
      Option.some vUnmatched.help ∧
    (resolveViolation [] vUnmatched).failingNodes = Option.none := by
  refine ⟨by decide, by decide, by decide⟩

/-- C4 (amended): on the exact-id and tag-fallback paths the resolved
report's insight carries reasoning = the violation's help text and the
report carries exactly one failing-node entry (markup snippet, joined
locator, failure summary) per raw node occurrence, stored in full; on the
synthetic-fallback path neither a reasoning field nor a failing-node list
is attached. -/
theorem C4_reasoning_and_failing_nodes (db : List ConvergenceRule)
    (v : RawViolation) :
    (∀ r, lookupReport db v = Option.some r →
      (resolveViolation db v).holmdigitalInsight.reasoning = Option.some v.help ∧
      (resolveViolation db v).failingNodes =
        Option.some (v.nodes.map mkFailingNode) ∧
      (v.nodes.map mkFailingNode).length = v.nodes.length) ∧
    (lookupReport db v = Option.none →
      (resolveViolation db v).holmdigitalInsight.reasoning = Option.none ∧
      (resolveViolation db v).failingNodes = Option.none) := by
  constructor
  · intro r hr
    simp [resolveViolation, hr]
  · intro hr
    simp [resolveViolation, hr]

/-- C4 witness: the matched-path conjunct evaluated at a concrete one-rule
table and matching violation, and the synthetic conjunct at the empty
table. -/
theorem C4_reasoning_and_failing_nodes_witness :
    ((lookupReport [ruleImageAlt] vImageAlt).isSome = true ∧
      (resolveViolation [ruleImageAlt] vImageAlt).holmdigitalInsight.reasoning =
        Option.some vImageAlt.help ∧
      (resolveViolation [ruleImageAlt] vImageAlt).failingNodes =
        Option.some (vImageAlt.nodes.map mkFailingNode)) ∧
    (lookupReport [] vUnmatched = Option.none ∧
      (resolveViolation [] vUnmatched).holmdigitalInsight.reasoning = Option.none ∧
      (resolveViolation [] vUnmatched).failingNodes = Option.none) := by
  constructor
  · have hs : (lookupReport [ruleImageAlt] vImageAlt).isSome = true := by decide
    obtain ⟨r, hr⟩ := Option.isSome_iff_exists.mp hs
    have h := (C4_reasoning_and_failing_nodes [ruleImageAlt] vImageAlt).1 r hr
    exact ⟨hs, h.1, h.2.1⟩
  · have h := (C4_reasoning_and_failing_nodes [] vUnmatched).2 (by decide)
    exact ⟨by decide, h.1, h.2⟩

/-- C1: the navigation retry loop makes exactly 3 attempts with the 60000 ms
goto timeout each and a fixed 2000 ms backoff between attempts; when all 3
fail, scan() surfaces the navigation error, and on every exit of scan()
(launch failure, navigation exhaustion, rule-engine failure, or success) the
browser session field is released by the finally block. -/
theorem C1_navigation_exhaustion_and_release (options : ScannerOptions)
    (env : ScanEnv) :
    (scan options env).2.browser = Option.none ∧
    (env.launchOk = true → env.navOk 0 = false → env.navOk 1 = false →
      env.navOk 2 = false →
      (scan options env).1 =
        Except.error (ScanError.navigation (env.navErrMsg 2)) ∧
      (navLoop env navigationRetries 0).2 =
        [{ timeoutMs := navigationTimeoutMs
           backoffAfterMs := Option.some navigationBackoffMs },
         { timeoutMs := navigationTimeoutMs
           backoffAfterMs := Option.some navigationBackoffMs },
         { timeoutMs := navigationTimeoutMs, backoffAfterMs := Option.none }]) := by
  constructor
  · simp only [scan, scanAttempt]
    by_cases hl : env.launchOk = false
    · simp [hl, closeScanner]
    · simp only [hl, if_false]
      cases h : (navLoop env navigationRetries 0).1 <;>
        by_cases ha : env.axeOk = false <;> simp [h, ha, closeScanner]
  · intro hlaunch h0 h1 h2
    have hnav : navLoop env navigationRetries 0 =
        (Except.error (ScanError.navigation (env.navErrMsg 2)),
          [{ timeoutMs := navigationTimeoutMs
             backoffAfterMs := Option.some navigationBackoffMs },
           { timeoutMs := navigationTimeoutMs
             backoffAfterMs := Option.some navigationBackoffMs },
           { timeoutMs := navigationTimeoutMs, backoffAfterMs := Option.none }]) := by
      simp [navigationRetries, navLoop, h0, h1, h2]
    refine ⟨?_, by rw [hnav]⟩
    simp [scan, scanAttempt, hlaunch, hnav]

/-- C1 witness: a concrete environment whose host is unreachable on every
attempt — the error surfaces, the attempt trace is 3 × 60000 ms with 2000 ms
backoffs, and the session is released. -/
theorem C1_navigation_exhaustion_and_release_witness :
    envAllNavFail.launchOk = true ∧
    envAllNavFail.navOk 0 = false ∧
    envAllNavFail.navOk 1 = false ∧
    envAllNavFail.navOk 2 = false ∧
    (scan optionsExample envAllNavFail).2.browser = Option.none ∧
    (scan optionsExample envAllNavFail).1 =
      Except.error (ScanError.navigation (envAllNavFail.navErrMsg 2)) ∧
    (navLoop envAllNavFail navigationRetries 0).2 =
      [{ timeoutMs := navigationTimeoutMs
         backoffAfterMs := Option.some navigationBackoffMs },
       { timeoutMs := navigationTimeoutMs
         backoffAfterMs := Option.some navigationBackoffMs },
       { timeoutMs := navigationTimeoutMs, backoffAfterMs := Option.none }] := by
  have h := C1_navigation_exhaustion_and_release optionsExample envAllNavFail
  have h2 := h.2 rfl rfl rfl rfl
  exact ⟨rfl, rfl, rfl, rfl, h.1, h2.1, h2.2⟩

/-- In a table whose ruleIds are pairwise distinct (the database is keyed by
rule id), looking a member rule up by its own ruleId returns that rule. -/
theorem getConvergenceRule_of_nodup (db : List ConvergenceRule)
    (r : ConvergenceRule)
    (hnodup : (db.map (fun x => x.ruleId)).Nodup) (hmem : r ∈ db) :
    getConvergenceRule db r.ruleId = Option.some r := by
  induction db with
  | nil => exact absurd hmem (List.not_mem_nil r)
  | cons a t ih =>
      rw [List.map_cons, List.nodup_cons] at hnodup
      rcases List.mem_cons.mp hmem with hra | hrt
      · subst hra
        unfold getConvergenceRule
        rw [List.find?_cons_of_pos]
        simp
      · have hne : a.ruleId ≠ r.ruleId := by
          intro he
          exact hnodup.1 (he ▸ List.mem_map_of_mem (fun x => x.ruleId) hrt)
        have hrec := ih hnodup.2 hrt
        unfold getConvergenceRule at hrec ⊢
        rw [List.find?_cons_of_neg]
        · exact hrec
        · simp [hne]

/-- The head of a searchRulesByTags result is a member of the table. -/
theorem searchRulesByTags_head_mem (db : List ConvergenceRule)
    (tags : List String) (r : ConvergenceRule) (rest : List ConvergenceRule)
    (h : searchRulesByTags db tags = r :: rest) : r ∈ db := by
  have hmem : r ∈ searchRulesByTags db tags := by
    rw [h]
    exact List.mem_cons_self r rest
  exact List.mem_of_mem_filter hmem

/-- C7: with no exact-id match and a nonempty tag query result, the resolved
report is generated from the first tag-sharing rule in the table's own
ordering (the table being keyed by rule id, so ruleIds are pairwise
distinct); no further ranking is applied. -/
theorem C7_tag_fallback_first_rule (db : List ConvergenceRule)
    (v : RawViolation) (r : ConvergenceRule) (rest : List ConvergenceRule)
    (hnodup : (db.map (fun x => x.ruleId)).Nodup)
    (hid : generateRegulatoryReport db v.id = Option.none)
    (htags : searchRulesByTags db v.tags = r :: rest) :
    (resolveViolation db v).ruleId = r.ruleId ∧
    (resolveViolation db v).wcagCriteria = r.wcagCriteria ∧
    (resolveViolation db v).en301549Criteria = r.en301549Criteria ∧
    (resolveViolation db v).dosLagenReference = r.dosLagenReference ∧
    (resolveViolation db v).diggRisk = r.holmdigitalInsight.diggRisk ∧
    (resolveViolation db v).eaaImpact = r.holmdigitalInsight.eaaImpact ∧
    (resolveViolation db v).remediation = r.remediation ∧
    (resolveViolation db v).testability = r.testability := by
  have hmem := searchRulesByTags_head_mem db v.tags r rest htags
  have hfind := getConvergenceRule_of_nodup db r hnodup hmem
  simp only [resolveViolation, lookupReport, hid, htags]
  simp [generateRegulatoryReport, hfind]

/-- C7 witness: a two-rule table, a violation whose id matches nothing but
whose tag set shares a tag with the second rule only. -/
theorem C7_tag_fallback_first_rule_witness :
    ([ruleImageAlt, ruleKeyboardNav].map (fun x => x.ruleId)).Nodup ∧
    generateRegulatoryReport [ruleImageAlt, ruleKeyboardNav] vTagOnly.id =
      Option.none ∧
    searchRulesByTags [ruleImageAlt, ruleKeyboardNav] vTagOnly.tags =
      [ruleKeyboardNav] ∧
    ((resolveViolation [ruleImageAlt, ruleKeyboardNav] vTagOnly).ruleId =
        ruleKeyboardNav.ruleId ∧
      (resolveViolation [ruleImageAlt, ruleKeyboardNav] vTagOnly).wcagCriteria =
        ruleKeyboardNav.wcagCriteria ∧
      (resolveViolation [ruleImageAlt, ruleKeyboardNav] vTagOnly).en301549Criteria =
        ruleKeyboardNav.en301549Criteria ∧
      (resolveViolation [ruleImageAlt, ruleKeyboardNav] vTagOnly).dosLagenReference =
        ruleKeyboardNav.dosLagenReference ∧
      (resolveViolation [ruleImageAlt, ruleKeyboardNav] vTagOnly).diggRisk =
        ruleKeyboardNav.holmdigitalInsight.diggRisk ∧
      (resolveViolation [ruleImageAlt, ruleKeyboardNav] vTagOnly).eaaImpact =
        ruleKeyboardNav.holmdigitalInsight.eaaImpact ∧
      (resolveViolation [ruleImageAlt, ruleKeyboardNav] vTagOnly).remediation =
        ruleKeyboardNav.remediation ∧
      (resolveViolation [ruleImageAlt, ruleKeyboardNav] vTagOnly).testability =
        ruleKeyboardNav.testability) := by
  refine ⟨by decide, by decide, by decide, ?_⟩
  exact C7_tag_fallback_first_rule [ruleImageAlt, ruleKeyboardNav] vTagOnly
    ruleKeyboardNav [] (by decide) (by decide) (by decide)

/-- A node the traversal emits for a DOM element (or text/comment input) is
never marked as a shadow root; only the synthetic fragment node is. -/
theorem traverseNode_isShadowRoot_false (cfg : VirtualDOMConfig) (n : DNode)
    (parentId : Option String) (depth counter : Nat) (v : VirtualNode)
    (h : (traverseNode cfg n parentId depth counter).1 = Option.some v) :
    v.isShadowRoot = false := by
  cases n with
  | textNode s => simp [traverseNode] at h
  | commentNode s => simp [traverseNode] at h
  | elem tag attrs styles rx ry rw rh text children sm st sk =>
      rw [traverseNode] at h
      by_cases hp : pruneAt cfg.maxDepth depth = true
      · simp [hp] at h
      · simp only [hp, Bool.false_eq_true, if_false] at h
        rw [← Option.some.inj h]
        rfl

/-- Every node the light-DOM child loop emits has the shadow marker unset. -/
theorem traverseChildren_isShadowRoot_false (cfg : VirtualDOMConfig)
    (parentId : Option String) (depth : Nat) :
    ∀ (ns : List DNode) (counter : Nat) (v : VirtualNode),
      v ∈ (traverseChildren cfg ns parentId depth counter).1 →
      v.isShadowRoot = false := by
  intro ns
  induction ns with
  | nil =>
      intro counter v hv
      simp [traverseChildren] at hv
  | cons n rest ih =>
      intro counter v hv
      rw [traverseChildren] at hv
      by_cases he : n.isElem = true
      · simp only [he, if_true] at hv
        rcases List.mem_append.mp hv with h1 | h2
        · cases hh : (traverseNode cfg n parentId depth counter).1 with
          | none => simp [optToList, hh] at h1
          | some w =>
              simp only [optToList, hh, List.mem_singleton] at h1
              subst h1
              exact traverseNode_isShadowRoot_false cfg n parentId depth
                counter v hh
        · exact ih _ _ h2
      · simp only [he, Bool.false_eq_true, if_false] at hv
        exact ih _ _ hv

/-- Evaluation of the shadow step on an attached, unpruned shadow root. -/
theorem traverseShadow_some (cfg : VirtualDOMConfig) (mode : ShadowMode)
    (stext : String) (kids : List DNode) (parentId : Option String)
    (depth counter : Nat) (hp : pruneAt cfg.maxDepth depth = false) :
    traverseShadow cfg (Option.some mode) stext kids parentId depth counter =
      (Option.some (VirtualNode.mk (genId (counter + 1)) "#shadow-root" []
        (traverseChildren cfg kids (Option.some (genId (counter + 1)))
          (depth + 1) (counter + 1)).1 parentId true (Option.some mode)
        zeroRect Option.none (optText stext)),
       (traverseChildren cfg kids (Option.some (genId (counter + 1)))
          (depth + 1) (counter + 1)).2) := by
  rw [traverseShadow]
  simp [hp]

/-- C9: an element with an attached shadow tree, unpruned at its own and at
its children's depth, is flattened to a node whose child list is the
light-DOM children (none of which is a shadow-root marker) followed by
exactly one trailing shadow-root marker carrying the declared mode. -/
theorem C9_shadow_marker (cfg : VirtualDOMConfig) (tag : String)
    (attrs styles : List (String × String)) (rx ry rw rh : Int)
    (text : String) (children : List DNode) (mode : ShadowMode)
    (stext : String) (skids : List DNode) (parentId : Option String)
    (depth counter : Nat)
    (hd0 : pruneAt cfg.maxDepth depth = false)
    (hd1 : pruneAt cfg.maxDepth (depth + 1) = false) :
    ∃ v ls m,
      (traverseNode cfg
        (DNode.elem tag attrs styles rx ry rw rh text children
          (Option.some mode) stext skids) parentId depth counter).1 =
        Option.some v ∧
      v.children = ls ++ [m] ∧
      (∀ u ∈ ls, u.isShadowRoot = false) ∧
      m.isShadowRoot = true ∧
      m.tagName = "#shadow-root" ∧
      m.shadowMode = Option.some mode := by
  rw [traverseNode]
  simp only [hd0, Bool.false_eq_true, if_false]
  rw [traverseShadow_some cfg mode stext skids _ _ _ hd1]
  refine ⟨_,
    (traverseChildren cfg children (Option.some (genId (counter + 1)))
      (depth + 1) (counter + 1)).1,
    VirtualNode.mk
      (genId ((traverseChildren cfg children (Option.some (genId (counter + 1)))
        (depth + 1) (counter + 1)).2 + 1))
      "#shadow-root" []
      (traverseChildren cfg skids
        (Option.some (genId ((traverseChildren cfg children
          (Option.some (genId (counter + 1))) (depth + 1) (counter + 1)).2 + 1)))
        (depth + 1 + 1)
        ((traverseChildren cfg children (Option.some (genId (counter + 1)))
          (depth + 1) (counter + 1)).2 + 1)).1
      (Option.some (genId (counter + 1))) true (Option.some mode) zeroRect
      Option.none (optText stext),
    rfl, rfl, ?_, rfl, rfl, rfl⟩
  intro u hu
  exact traverseChildren_isShadowRoot_false cfg
    (Option.some (genId (counter + 1))) (depth + 1) children (counter + 1) u hu

/-- C9 witness: a concrete host with two light element children, one light
text node and an open shadow root, flattened with the default config. -/
theorem C9_shadow_marker_witness :
    pruneAt defaultVDOMConfig.maxDepth 0 = false ∧
    pruneAt defaultVDOMConfig.maxDepth (0 + 1) = false ∧
    ∃ v ls m,
      (traverseNode defaultVDOMConfig shadowHost Option.none 0 0).1 =
        Option.some v ∧
      v.children = ls ++ [m] ∧
      (∀ u ∈ ls, u.isShadowRoot = false) ∧
      m.isShadowRoot = true ∧
      m.tagName = "#shadow-root" ∧
      m.shadowMode = Option.some ShadowMode.openMode :=
  ⟨rfl, rfl,
    C9_shadow_marker defaultVDOMConfig "div" [("id", "host")] [] 0 0 10 10
      "hello" [spanLeaf, DNode.textNode "light text", spanLeaf]
      ShadowMode.openMode "shadow text" [spanLeaf] Option.none 0 0 rfl rfl⟩

/-- C3 witness: one critical and two medium reports score exactly 65. -/
theorem C3_score_formula_witness :
    (generateResultPackage "https://example.org" "2026-01-01T00:00:00.000Z"
      [reportCriticalEx, reportMediumEx, reportMediumEx]).stats.critical = 1 ∧
    (generateResultPackage "https://example.org" "2026-01-01T00:00:00.000Z"
      [reportCriticalEx, reportMediumEx, reportMediumEx]).stats.high = 0 ∧
    (generateResultPackage "https://example.org" "2026-01-01T00:00:00.000Z"
      [reportCriticalEx, reportMediumEx, reportMediumEx]).stats.medium = 2 ∧
    (generateResultPackage "https://example.org" "2026-01-01T00:00:00.000Z"
      [reportCriticalEx, reportMediumEx, reportMediumEx]).stats.low = 0 ∧
    (generateResultPackage "https://example.org" "2026-01-01T00:00:00.000Z"
      [reportCriticalEx, reportMediumEx, reportMediumEx]).score = 65 := by
  refine ⟨by decide, by decide, by decide, by decide, ?_⟩
  exact (C3_score_formula "https://example.org" "2026-01-01T00:00:00.000Z"
    [reportCriticalEx, reportMediumEx, reportMediumEx]).2
    (by decide) (by decide) (by decide) (by decide)
